import Mathlib

/-!
Verification development for the fire-detection embedded system.

The repository contains two near-duplicate Arduino sketches:
* the Tinkercad-optimized sketch (TMP36 sensor), embedded in namespace
  `FireDetection.Tinkercad`;
* the DHT22 sketch `fire_detection_system.ino`, embedded in namespace
  `FireDetection.Dht`.

Modelling conventions (shallow embedding):
* `float` temperatures become `ℚ` (all comparisons in the source are with
  exactly representable constants such as 50.0 and 60.0);
* `byte` counters become `Nat` updated modulo 256, `unsigned int` / `unsigned
  long` counters become `Nat` updated modulo `2^32` where overflow can matter;
* each C function mutating globals becomes a pure function from the global
  state record to a new state record; `Serial` printing is not state, except
  that functions whose emitted security alert a claim mentions additionally
  return a `Bool` saying whether the alert fired;
* the hardware reading (`analogRead`/`dht.readTemperature`) is the external
  boundary: sensor-reading functions take the raw measured temperature as an
  argument (`Option ℚ` for the DHT variant, whose `readTemperature` can
  return NaN, modelled as `none`).
-/

namespace FireDetection

namespace Tinkercad

/-- The three risk levels of the `FireRiskLevel` enum. -/
inductive FireRiskLevel where
  | normal
  | warning
  | danger
deriving DecidableEq, Repr

/-- The `SystemMode` enum. -/
inductive SystemMode where
  | autoMode
  | demoMode
deriving DecidableEq, Repr

/-- Threshold constant `TEMP_WARNING = 50.0`. -/
def TEMP_WARNING : ℚ := 50

/-- Threshold constant `TEMP_DANGER = 60.0`. -/
def TEMP_DANGER : ℚ := 60

/-- Validation bound `TEMP_MIN_VALID = -10.0`. -/
def TEMP_MIN_VALID : ℚ := -10

/-- Validation bound `TEMP_MAX_VALID = 85.0`. -/
def TEMP_MAX_VALID : ℚ := 85

/-- Security constant `MAX_SENSOR_ERRORS = 5`. -/
def MAX_SENSOR_ERRORS : Nat := 5

/-- Security constant `MAX_INVALID_COMMANDS = 3`. -/
def MAX_INVALID_COMMANDS : Nat := 3

/-- Modulus of the 8-bit `byte` type. -/
def BYTE_MOD : Nat := 256

/-- Modulus of 32-bit `unsigned long` arithmetic. -/
def UINT32_MOD : Nat := 4294967296

/-- The global mutable state of the Tinkercad sketch, one field per global
variable (timestamps and output pin levels included, since the LED/buzzer
logic reads and writes them). -/
structure S where
  currentRiskLevel : FireRiskLevel
  systemMode : SystemMode
  currentTemperature : ℚ
  demoTemperature : ℚ
  lastValidTemperature : ℚ
  motionDetected : Bool
  demoMotion : Bool
  suppressionActivated : Bool
  sensorErrorCount : Nat
  invalidCommandCount : Nat
  systemIntegrityOK : Bool
  ledBlinkState : Bool
  buzzerBeepState : Bool
  lastLedUpdate : Nat
  lastBuzzerUpdate : Nat
  ledGreen : Bool
  ledYellow : Bool
  ledRed : Bool
  buzzerPin : Bool
  relayPin : Bool
  totalSensorReadings : Nat
  warningActivations : Nat
  dangerActivations : Nat
  suppressionActivations : Nat
deriving DecidableEq, Repr

/-- The state right after `setup()`: the initial values of the globals, with
the green LED driven high by `initializeHardware`. -/
def initS : S where
  currentRiskLevel := .normal
  systemMode := .autoMode
  currentTemperature := 25
  demoTemperature := 25
  lastValidTemperature := 25
  motionDetected := false
  demoMotion := false
  suppressionActivated := false
  sensorErrorCount := 0
  invalidCommandCount := 0
  systemIntegrityOK := true
  ledBlinkState := false
  buzzerBeepState := false
  lastLedUpdate := 0
  lastBuzzerUpdate := 0
  ledGreen := true
  ledYellow := false
  ledRed := false
  buzzerPin := false
  relayPin := false
  totalSensorReadings := 0
  warningActivations := 0
  dangerActivations := 0
  suppressionActivations := 0

/-- `readTMP36Temperature`, taking the converted temperature as input.
A reading inside `[TEMP_MIN_VALID, TEMP_MAX_VALID]` is accepted (updates the
current and last-valid temperatures, clears the error counter, restores the
integrity flag); a reading outside is rejected (bumps the `byte` error
counter, substitutes the last valid temperature, and drops the integrity
flag once the counter reaches `MAX_SENSOR_ERRORS`). -/
def readTMP36Temperature (s : S) (temperature : ℚ) : S :=
  if TEMP_MIN_VALID ≤ temperature ∧ temperature ≤ TEMP_MAX_VALID then
    { s with currentTemperature := temperature
             lastValidTemperature := temperature
             sensorErrorCount := 0
             systemIntegrityOK := true }
  else
    let ec := (s.sensorErrorCount + 1) % BYTE_MOD
    { s with sensorErrorCount := ec
             currentTemperature := s.lastValidTemperature
             systemIntegrityOK :=
               if MAX_SENSOR_ERRORS ≤ ec then false else s.systemIntegrityOK }

/-- `readSensorsWithValidation`: bumps the total-readings counter, then in
demo mode copies the injected demo values (and clears the error counter),
and in auto mode validates the raw reading via `readTMP36Temperature` and
samples the PIR pin. -/
def readSensorsWithValidation (s : S) (rawTemperature : ℚ) (pir : Bool) : S :=
  let s1 := { s with totalSensorReadings := s.totalSensorReadings + 1 }
  match s1.systemMode with
  | .demoMode =>
      { s1 with currentTemperature := s1.demoTemperature
                motionDetected := s1.demoMotion
                sensorErrorCount := 0 }
  | .autoMode =>
      { readTMP36Temperature s1 rawTemperature with motionDetected := pir }

/-- `evaluateFireRisk`: recomputes the risk level from the current
temperature; on a transition into Danger or Warning it bumps the matching
`unsigned int` statistic (modular increment), and on a transition into
Normal it clears the suppression latch. -/
def evaluateFireRisk (s : S) : S :=
  let previousLevel := s.currentRiskLevel
  if TEMP_DANGER ≤ s.currentTemperature then
    { s with currentRiskLevel := .danger
             dangerActivations :=
               if previousLevel ≠ .danger then
                 (s.dangerActivations + 1) % UINT32_MOD
               else s.dangerActivations }
  else if TEMP_WARNING ≤ s.currentTemperature then
    { s with currentRiskLevel := .warning
             warningActivations :=
               if previousLevel ≠ .warning then
                 (s.warningActivations + 1) % UINT32_MOD
               else s.warningActivations }
  else
    { s with currentRiskLevel := .normal
             suppressionActivated :=
               if previousLevel ≠ .normal then false
               else s.suppressionActivated }

/-- `validateSuppressionCommand`: the security gate checked before the
suppression actuates. -/
def validateSuppressionCommand (s : S) : Bool :=
  decide (TEMP_DANGER ≤ s.currentTemperature) &&
  decide (3 < s.totalSensorReadings) &&
  s.systemIntegrityOK

/-- `activateFireSuppression`: net persistent effect of the blocking
activation sequence (the `unsigned int` statistic bumped modularly, latch
set; the relay is pulsed high for the dwell and released, and the LED
flash sequence leaves all three LEDs low). -/
def activateFireSuppression (s : S) : S :=
  { s with suppressionActivations := (s.suppressionActivations + 1) % UINT32_MOD
           suppressionActivated := true
           ledRed := false
           ledYellow := false
           ledGreen := false
           relayPin := false }

/-- `handleFireSuppression`: runs the activation when the level is Danger,
the latch is clear, and the validation gate passes. The returned `Bool`
records whether the relay was driven (the activation sequence ran). -/
def handleFireSuppression (s : S) : S × Bool :=
  if s.currentRiskLevel = .danger ∧ s.suppressionActivated = false then
    if validateSuppressionCommand s then (activateFireSuppression s, true)
    else (s, false)
  else (s, false)

/-- `validateDemoCommand`: demo/test commands require more than one
completed sensor reading. -/
def validateDemoCommand (s : S) : Bool :=
  decide (1 < s.totalSensorReadings)

/-- `resetSystemSecure`: restores every mutable state field and the default
output pin levels. -/
def resetSystemSecure (s : S) : S :=
  { s with currentRiskLevel := .normal
           systemMode := .autoMode
           suppressionActivated := false
           demoTemperature := 25
           demoMotion := false
           sensorErrorCount := 0
           invalidCommandCount := 0
           systemIntegrityOK := true
           relayPin := false
           buzzerPin := false
           ledRed := false
           ledYellow := false
           ledGreen := true }

/-- `processSecureCommand`, applied to the already trimmed and upper-cased
command text. The returned `Bool` records whether the multiple-invalid-
commands security alert was printed. Commands that only print reports
leave the state unchanged. -/
def processSecureCommand (s : S) (cmd : String) : S × Bool :=
  if cmd.length = 0 ∨ 15 < cmd.length then
    ({ s with invalidCommandCount := (s.invalidCommandCount + 1) % BYTE_MOD },
     false)
  else if cmd = "HELP" then (s, false)
  else if cmd = "STATUS" then (s, false)
  else if cmd = "TEST_NORMAL" then
    (if validateDemoCommand s then
       { s with systemMode := .demoMode, demoTemperature := 25 }
     else s, false)
  else if cmd = "TEST_WARNING" then
    (if validateDemoCommand s then
       { s with systemMode := .demoMode, demoTemperature := 55 }
     else s, false)
  else if cmd = "TEST_DANGER" then
    (if validateDemoCommand s then
       { s with systemMode := .demoMode, demoTemperature := 70 }
     else s, false)
  else if cmd = "MOTION" then
    ({ s with demoMotion := !s.demoMotion }, false)
  else if cmd = "RESET" then (resetSystemSecure s, false)
  else if cmd = "AUTO" then ({ s with systemMode := .autoMode }, false)
  else if cmd = "DEMO" then ({ s with systemMode := .demoMode }, false)
  else if cmd = "STATS" then (s, false)
  else if cmd = "SECURITY" then (s, false)
  else
    let ic := (s.invalidCommandCount + 1) % BYTE_MOD
    if MAX_INVALID_COMMANDS ≤ ic then
      ({ s with invalidCommandCount := 0 }, true)
    else
      ({ s with invalidCommandCount := ic }, false)

/-- The eleven recognized command keywords. -/
def commandKeywords : List String :=
  ["HELP", "STATUS", "TEST_NORMAL", "TEST_WARNING", "TEST_DANGER",
   "MOTION", "RESET", "AUTO", "DEMO", "STATS", "SECURITY"]

/-- One risk-evaluation step on an effective temperature `t`: the sensor
layer has stored `t` into `currentTemperature`, then `evaluateFireRisk`
runs (this is the per-tick composition the main loop performs before the
output and suppression phases). -/
def evalStep (s : S) (t : ℚ) : S :=
  evaluateFireRisk { s with currentTemperature := t }

/-- One evaluation-plus-suppression step on an effective temperature `t`:
`evalStep` followed by `handleFireSuppression`, as in the main loop. -/
def episodeStep (s : S) (t : ℚ) : S :=
  (handleFireSuppression (evalStep s t)).1

/-- Unsigned-long subtraction `now - last` as the Arduino timing idiom
computes it (wraparound modulo 2^32). -/
def elapsed (now last : Nat) : Nat :=
  (now + (UINT32_MOD - last % UINT32_MOD)) % UINT32_MOD

/-- `updateLEDIndicators`: Normal drives green solid and the others off;
Warning toggles yellow every `LED_SLOW_BLINK = 1000` ms; Danger toggles red
every `LED_FAST_BLINK = 200` ms; a toggle stores the new blink state and
records `now` as the last LED update time. -/
def updateLEDIndicators (s : S) (now : Nat) : S :=
  match s.currentRiskLevel with
  | .normal =>
      { s with ledGreen := true, ledYellow := false, ledRed := false }
  | .warning =>
      if 1000 ≤ elapsed now s.lastLedUpdate then
        { s with ledBlinkState := !s.ledBlinkState
                 ledGreen := false
                 ledYellow := !s.ledBlinkState
                 ledRed := false
                 lastLedUpdate := now }
      else s
  | .danger =>
      if 200 ≤ elapsed now s.lastLedUpdate then
        { s with ledBlinkState := !s.ledBlinkState
                 ledGreen := false
                 ledYellow := false
                 ledRed := !s.ledBlinkState
                 lastLedUpdate := now }
      else s

/-- `updateBuzzerAlerts`: Normal silences the buzzer; Warning toggles it
every `BUZZER_BEEP_INTERVAL = 2000` ms; Danger drives it continuously. -/
def updateBuzzerAlerts (s : S) (now : Nat) : S :=
  match s.currentRiskLevel with
  | .normal =>
      { s with buzzerPin := false, buzzerBeepState := false }
  | .warning =>
      if 2000 ≤ elapsed now s.lastBuzzerUpdate then
        { s with buzzerBeepState := !s.buzzerBeepState
                 buzzerPin := !s.buzzerBeepState
                 lastBuzzerUpdate := now }
      else s
  | .danger =>
      { s with buzzerPin := true, buzzerBeepState := true }

/-- The per-tick output render phase of the main loop: LED update then
buzzer update, both at the same `millis()` value. -/
def render (s : S) (now : Nat) : S :=
  updateBuzzerAlerts (updateLEDIndicators s now) now

end Tinkercad

namespace Dht

/-- Security constant `MAX_TEMP = 100` (declared `unsigned int`). -/
def MAX_TEMP : Nat := (100 : Int).toNat

/-- Modulus of 32-bit `unsigned int` arithmetic (the width the host/simulator
ABI gives `unsigned int`; on an 8-bit AVR target the width would be 16, with
the same qualitative consequences below). -/
def UINT_MOD : Nat := 4294967296

/-- Conversion of a signed initializer into the `unsigned int` it actually
stores (C modular conversion). -/
def uintOfInt (i : Int) : Nat := (i % (UINT_MOD : Int)).toNat

/-- Security constant `MIN_TEMP`, declared `const unsigned int MIN_TEMP = -20`:
the initializer wraps modulo `2^32`. -/
def MIN_TEMP : Nat := uintOfInt (-20)

/-- Threshold constant `TEMP_WARN = 50.0`. -/
def TEMP_WARN : ℚ := 50

/-- Threshold constant `TEMP_DANGER = 60.0` of the DHT sketch. -/
def TEMP_DANGER : ℚ := 60

/-- The global mutable state of the DHT sketch (the fields the modelled
functions read or write). `riskLevel` and `sysMode` are `byte` variables
holding 0/1/2 and 0/1 respectively, kept as `Nat` so that the forced
assignment `riskLevel = 1` is literal. -/
structure DState where
  riskLevel : Nat
  sysMode : Nat
  currentTemp : ℚ
  demoTemp : ℚ
  lastValidTemp : ℚ
  motion : Bool
  demoMotion : Bool
  suppressed : Bool
  sensorErrorCount : Nat
  invalidCommandCount : Nat
  readings : Nat
  warnings : Nat
  dangers : Nat
deriving DecidableEq, Repr

/-- Initial values of the DHT sketch globals. -/
def dInit : DState where
  riskLevel := 0
  sysMode := 0
  currentTemp := 25
  demoTemp := 25
  lastValidTemp := 25
  motion := false
  demoMotion := false
  suppressed := false
  sensorErrorCount := 0
  invalidCommandCount := 0
  readings := 0
  warnings := 0
  dangers := 0

/-- The rejected-reading branch of `readSensorsSecure`: bump the error
counter, substitute the last valid temperature, and once the counter
exceeds 5 force the risk level to Warning (safety mode). -/
def rejectReading (s : DState) : DState :=
  let ec := (s.sensorErrorCount + 1) % UINT_MOD
  let s1 := { s with sensorErrorCount := ec, currentTemp := s.lastValidTemp }
  if 5 < ec then { s1 with riskLevel := 1 } else s1

/-- `readSensorsSecure`, taking the raw DHT reading (`none` models NaN) and
the PIR pin level. In demo mode the injected values are copied; in auto
mode a reading is rejected when it is NaN, below `MIN_TEMP`, or above
`MAX_TEMP` (both bounds converted to floating point, modelled exactly
in `ℚ`). -/
def readSensorsSecure (s : DState) (raw : Option ℚ) (pir : Bool) : DState :=
  let s1 := { s with readings := s.readings + 1 }
  if s1.sysMode = 1 then
    { s1 with currentTemp := s1.demoTemp, motion := s1.demoMotion }
  else
    let s2 :=
      match raw with
      | none => rejectReading s1
      | some temp =>
          if temp < (MIN_TEMP : ℚ) ∨ (MAX_TEMP : ℚ) < temp then
            rejectReading s1
          else
            { s1 with currentTemp := temp
                      lastValidTemp := temp
                      sensorErrorCount := 0 }
    { s2 with motion := pir }

/-- `checkRisk`: recomputes `riskLevel` from `currentTemp` with the same
thresholds as the Tinkercad sketch, bumping the `unsigned int`
warning/danger statistics (modular increment) on entry transitions. -/
def checkRisk (s : DState) : DState :=
  let oldRisk := s.riskLevel
  if TEMP_DANGER ≤ s.currentTemp then
    { s with riskLevel := 2
             dangers :=
               if oldRisk ≠ 2 then (s.dangers + 1) % UINT_MOD else s.dangers }
  else if TEMP_WARN ≤ s.currentTemp then
    { s with riskLevel := 1
             warnings :=
               if oldRisk ≠ 1 then (s.warnings + 1) % UINT_MOD
               else s.warnings }
  else
    { s with riskLevel := 0 }

/-- One risk-evaluation step of the DHT sketch on an effective temperature
`u`: the sensor layer has stored `u` into `currentTemp`, then `checkRisk`
runs, as in the main loop. -/
def checkStep (s : DState) (u : ℚ) : DState :=
  checkRisk { s with currentTemp := u }

/-- Folding `readSensorsSecure` over a list of (raw reading, PIR) samples. -/
def runReads (s : DState) (samples : List (Option ℚ × Bool)) : DState :=
  samples.foldl (fun st p => readSensorsSecure st p.1 p.2) s

end Dht

open Tinkercad

/-- C1: the risk-evaluation step of both sketches classifies a temperature
`t` as Normal when `t < 50`, Warning when `50 ≤ t < 60`, and Danger when
`60 ≤ t`; in particular exactly 50 evaluates to Warning and exactly 60 to
Danger. -/
theorem c1_risk_thresholds (s : S) (d : Dht.DState) :
    (s.currentTemperature < 50 → (evaluateFireRisk s).currentRiskLevel = .normal) ∧
    (50 ≤ s.currentTemperature → s.currentTemperature < 60 →
      (evaluateFireRisk s).currentRiskLevel = .warning) ∧
    (60 ≤ s.currentTemperature → (evaluateFireRisk s).currentRiskLevel = .danger) ∧
    (s.currentTemperature = 50 → (evaluateFireRisk s).currentRiskLevel = .warning) ∧
    (s.currentTemperature = 60 → (evaluateFireRisk s).currentRiskLevel = .danger) ∧
    (d.currentTemp < 50 → (Dht.checkRisk d).riskLevel = 0) ∧
    (50 ≤ d.currentTemp → d.currentTemp < 60 → (Dht.checkRisk d).riskLevel = 1) ∧
    (60 ≤ d.currentTemp → (Dht.checkRisk d).riskLevel = 2) ∧
    (d.currentTemp = 50 → (Dht.checkRisk d).riskLevel = 1) ∧
    (d.currentTemp = 60 → (Dht.checkRisk d).riskLevel = 2) := by
  unfold evaluateFireRisk Dht.checkRisk TEMP_DANGER TEMP_WARNING Dht.TEMP_DANGER Dht.TEMP_WARN
  refine ⟨?_, ?_, ?_, ?_, ?_, ?_, ?_, ?_, ?_, ?_⟩ <;> intro h <;>
    first
      | (split_ifs <;> first | rfl | linarith)
      | (intro h2; split_ifs <;> first | rfl | linarith)

/-- Witness for C1 at concrete states with temperature 50. -/
theorem c1_risk_thresholds_witness :
    (evaluateFireRisk { initS with currentTemperature := 50 }).currentRiskLevel =
      .warning ∧
    (Dht.checkRisk { Dht.dInit with currentTemp := 50 }).riskLevel = 1 := by
  refine ⟨?_, ?_⟩
  · exact (c1_risk_thresholds { initS with currentTemperature := 50 }
      Dht.dInit).2.2.2.1 rfl
  · exact (c1_risk_thresholds initS
      { Dht.dInit with currentTemp := 50 }).2.2.2.2.2.2.2.2.1 rfl

theorem readTMP36_invalid (s : S) (t : ℚ)
    (h : t < TEMP_MIN_VALID ∨ TEMP_MAX_VALID < t) :
    readTMP36Temperature s t =
      { s with sensorErrorCount := (s.sensorErrorCount + 1) % BYTE_MOD
               currentTemperature := s.lastValidTemperature
               systemIntegrityOK :=
                 if MAX_SENSOR_ERRORS ≤ (s.sensorErrorCount + 1) % BYTE_MOD
                 then false else s.systemIntegrityOK } := by
  have hcond : ¬ (TEMP_MIN_VALID ≤ t ∧ t ≤ TEMP_MAX_VALID) := by
    rcases h with h | h
    · exact fun hc => absurd hc.1 (not_le.mpr h)
    · exact fun hc => absurd hc.2 (not_le.mpr h)
  unfold readTMP36Temperature
  rw [if_neg hcond]

theorem readTMP36_valid (s : S) (t : ℚ)
    (h : TEMP_MIN_VALID ≤ t ∧ t ≤ TEMP_MAX_VALID) :
    readTMP36Temperature s t =
      { s with currentTemperature := t
               lastValidTemperature := t
               sensorErrorCount := 0
               systemIntegrityOK := true } := by
  unfold readTMP36Temperature
  rw [if_pos h]

/-- A concrete state in which the byte error counter has climbed to 255
(reachable after 255 consecutive out-of-range readings, e.g. a disconnected
TMP36 reporting -50). -/
def c4State : S := { initS with sensorErrorCount := 255, systemIntegrityOK := false }

/-- C4 counterexample: at error count 255 a rejected reading (raw 200,
outside [-10, 85]) wraps the `byte` counter to 0 instead of increasing it
by exactly 1. -/
theorem c4_counterexample :
    c4State.sensorErrorCount = 255 ∧
    (TEMP_MAX_VALID < (200 : ℚ)) ∧
    (readTMP36Temperature c4State 200).sensorErrorCount = 0 ∧
    (readTMP36Temperature c4State 200).sensorErrorCount ≠
      c4State.sensorErrorCount + 1 := by
  have h : TEMP_MAX_VALID < (200 : ℚ) := by norm_num [TEMP_MAX_VALID]
  have e := readTMP36_invalid c4State 200 (Or.inr h)
  refine ⟨rfl, h, ?_, ?_⟩ <;> rw [e] <;> simp [c4State, initS, BYTE_MOD]

/-- C4 (amended): provided the byte error counter is below 255 (so its
mod-256 increment does not wrap), a rejected reading substitutes the last
valid temperature, increments the counter by exactly 1, and leaves the
last-known-good value unchanged; a valid reading stores the raw value in
both the effective and last-known-good temperatures and resets the counter
to 0. -/
theorem c4_sensor_substitution (s : S) (t u : ℚ)
    (hwrap : s.sensorErrorCount < 255) :
    ((t < TEMP_MIN_VALID ∨ TEMP_MAX_VALID < t) →
      (readTMP36Temperature s t).currentTemperature = s.lastValidTemperature ∧
      (readTMP36Temperature s t).sensorErrorCount = s.sensorErrorCount + 1 ∧
      (readTMP36Temperature s t).lastValidTemperature = s.lastValidTemperature) ∧
    ((TEMP_MIN_VALID ≤ u ∧ u ≤ TEMP_MAX_VALID) →
      (readTMP36Temperature s u).currentTemperature = u ∧
      (readTMP36Temperature s u).lastValidTemperature = u ∧
      (readTMP36Temperature s u).sensorErrorCount = 0) := by
  have hmod : (s.sensorErrorCount + 1) % BYTE_MOD = s.sensorErrorCount + 1 :=
    Nat.mod_eq_of_lt (by unfold BYTE_MOD; omega)
  constructor
  · intro h
    rw [readTMP36_invalid s t h]
    simp [hmod]
  · intro h
    rw [readTMP36_valid s u h]
    simp

/-- Witness for C4 (amended) at the initial state: a rejected 200 °C reading
bumps the counter from 0 to 1, a valid 25 °C reading resets it to 0. -/
theorem c4_sensor_substitution_witness :
    (readTMP36Temperature initS 200).sensorErrorCount = initS.sensorErrorCount + 1 ∧
    (readTMP36Temperature initS 25).sensorErrorCount = 0 :=
  ⟨((c4_sensor_substitution initS 200 25 (by decide)).1
      (Or.inr (by norm_num [TEMP_MAX_VALID]))).2.1,
   ((c4_sensor_substitution initS 200 25 (by decide)).2
      (by norm_num [TEMP_MIN_VALID, TEMP_MAX_VALID])).2.2⟩

/-- C5: from a state with integrity flag true and error counter 0, five
consecutive rejected readings leave the integrity flag false (after only
four it is still true), and one subsequent valid reading restores the flag
and resets the counter to 0. -/
theorem c5_integrity_threshold (s : S) (r1 r2 r3 r4 r5 v : ℚ)
    (h0 : s.sensorErrorCount = 0) (hI : s.systemIntegrityOK = true)
    (h1 : r1 < TEMP_MIN_VALID ∨ TEMP_MAX_VALID < r1)
    (h2 : r2 < TEMP_MIN_VALID ∨ TEMP_MAX_VALID < r2)
    (h3 : r3 < TEMP_MIN_VALID ∨ TEMP_MAX_VALID < r3)
    (h4 : r4 < TEMP_MIN_VALID ∨ TEMP_MAX_VALID < r4)
    (h5 : r5 < TEMP_MIN_VALID ∨ TEMP_MAX_VALID < r5)
    (hv : TEMP_MIN_VALID ≤ v ∧ v ≤ TEMP_MAX_VALID) :
    (readTMP36Temperature (readTMP36Temperature (readTMP36Temperature
        (readTMP36Temperature s r1) r2) r3) r4).systemIntegrityOK = true ∧
    (readTMP36Temperature (readTMP36Temperature (readTMP36Temperature
        (readTMP36Temperature (readTMP36Temperature s r1) r2) r3) r4)
        r5).systemIntegrityOK = false ∧
    (readTMP36Temperature (readTMP36Temperature (readTMP36Temperature
        (readTMP36Temperature (readTMP36Temperature s r1) r2) r3) r4)
        r5).sensorErrorCount = 5 ∧
    (readTMP36Temperature (readTMP36Temperature (readTMP36Temperature
        (readTMP36Temperature (readTMP36Temperature (readTMP36Temperature
        s r1) r2) r3) r4) r5) v).systemIntegrityOK = true ∧
    (readTMP36Temperature (readTMP36Temperature (readTMP36Temperature
        (readTMP36Temperature (readTMP36Temperature (readTMP36Temperature
        s r1) r2) r3) r4) r5) v).sensorErrorCount = 0 := by
  have e1 : readTMP36Temperature s r1 =
      { s with sensorErrorCount := 1
               currentTemperature := s.lastValidTemperature
               systemIntegrityOK := true } := by
    rw [readTMP36_invalid s r1 h1, h0, hI]
    norm_num [BYTE_MOD, MAX_SENSOR_ERRORS]
  have e2 : readTMP36Temperature (readTMP36Temperature s r1) r2 =
      { s with sensorErrorCount := 2
               currentTemperature := s.lastValidTemperature
               systemIntegrityOK := true } := by
    rw [e1, readTMP36_invalid _ r2 h2]
    norm_num [BYTE_MOD, MAX_SENSOR_ERRORS]
  have e3 : readTMP36Temperature (readTMP36Temperature
      (readTMP36Temperature s r1) r2) r3 =
      { s with sensorErrorCount := 3
               currentTemperature := s.lastValidTemperature
               systemIntegrityOK := true } := by
    rw [e2, readTMP36_invalid _ r3 h3]
    norm_num [BYTE_MOD, MAX_SENSOR_ERRORS]
  have e4 : readTMP36Temperature (readTMP36Temperature (readTMP36Temperature
      (readTMP36Temperature s r1) r2) r3) r4 =
      { s with sensorErrorCount := 4
               currentTemperature := s.lastValidTemperature
               systemIntegrityOK := true } := by
    rw [e3, readTMP36_invalid _ r4 h4]
    norm_num [BYTE_MOD, MAX_SENSOR_ERRORS]
  have e5 : readTMP36Temperature (readTMP36Temperature (readTMP36Temperature
      (readTMP36Temperature (readTMP36Temperature s r1) r2) r3) r4) r5 =
      { s with sensorErrorCount := 5
               currentTemperature := s.lastValidTemperature
               systemIntegrityOK := false } := by
    rw [e4, readTMP36_invalid _ r5 h5]
    norm_num [BYTE_MOD, MAX_SENSOR_ERRORS]
  have e6 := readTMP36_valid (readTMP36Temperature (readTMP36Temperature
      (readTMP36Temperature (readTMP36Temperature (readTMP36Temperature
      s r1) r2) r3) r4) r5) v hv
  rw [e5] at e6
  refine ⟨?_, ?_, ?_, ?_, ?_⟩
  · rw [e4]
  · rw [e5]
  · rw [e5]
  · rw [e5, e6]
  · rw [e5, e6]

/-- Witness for C5 at the initial state with five 200 °C readings followed
by a valid 25 °C reading. -/
theorem c5_integrity_threshold_witness :
    (readTMP36Temperature (readTMP36Temperature (readTMP36Temperature
        (readTMP36Temperature (readTMP36Temperature initS 200) 200) 200) 200)
        200).systemIntegrityOK = false ∧
    (readTMP36Temperature (readTMP36Temperature (readTMP36Temperature
        (readTMP36Temperature (readTMP36Temperature (readTMP36Temperature
        initS 200) 200) 200) 200) 200) 25).systemIntegrityOK = true := by
  have h200 : (200 : ℚ) < TEMP_MIN_VALID ∨ TEMP_MAX_VALID < 200 :=
    Or.inr (by norm_num [TEMP_MAX_VALID])
  have h := c5_integrity_threshold initS 200 200 200 200 200 25 rfl rfl
    h200 h200 h200 h200 h200
    (by norm_num [TEMP_MIN_VALID, TEMP_MAX_VALID])
  exact ⟨h.2.1, h.2.2.2.1⟩

theorem handleFireSuppression_noop_latched (s : S)
    (hA : s.suppressionActivated = true) :
    handleFireSuppression s = (s, false) := by
  unfold handleFireSuppression
  rw [if_neg (by simp [hA])]

theorem evaluateFireRisk_hot (s : S) (h : 50 ≤ s.currentTemperature) :
    (evaluateFireRisk s).suppressionActivated = s.suppressionActivated ∧
    (evaluateFireRisk s).suppressionActivations = s.suppressionActivations := by
  unfold evaluateFireRisk TEMP_DANGER TEMP_WARNING
  split_ifs <;> first | simp | linarith

theorem episodeStep_latched (s : S) (t : ℚ)
    (hA : s.suppressionActivated = true) (ht : 50 ≤ t) :
    (episodeStep s t).suppressionActivated = true ∧
    (episodeStep s t).suppressionActivations = s.suppressionActivations := by
  unfold episodeStep evalStep
  have he := evaluateFireRisk_hot { s with currentTemperature := t } (by simpa using ht)
  rw [handleFireSuppression_noop_latched _ (by rw [he.1]; exact hA)]
  exact ⟨by rw [he.1]; exact hA, he.2⟩

/-- C3: the suppression step drives the relay (and then sets the latch and
bumps the `unsigned int` activation statistic, a modular increment) exactly
when the risk level is Danger, the latch is clear, the temperature is at
least 60, more than 3 readings have been taken, and the integrity flag is
true; when it does not fire, the state is unchanged. -/
theorem c3_suppression_gate (s : S) :
    ((handleFireSuppression s).2 = true ↔
      (s.currentRiskLevel = .danger ∧ s.suppressionActivated = false ∧
       60 ≤ s.currentTemperature ∧ 3 < s.totalSensorReadings ∧
       s.systemIntegrityOK = true)) ∧
    ((handleFireSuppression s).2 = true →
      (handleFireSuppression s).1.suppressionActivated = true ∧
      (handleFireSuppression s).1.suppressionActivations =
        (s.suppressionActivations + 1) % UINT32_MOD) ∧
    ((handleFireSuppression s).2 = false → (handleFireSuppression s).1 = s) := by
  unfold handleFireSuppression validateSuppressionCommand
    activateFireSuppression TEMP_DANGER
  split_ifs with h1 h2 <;> simp_all

/-- A reachable state meeting every suppression precondition. -/
def c3State : S :=
  { initS with currentRiskLevel := .danger, currentTemperature := 70,
               totalSensorReadings := 10 }

/-- Witness for C3: in a Danger state at 70 °C with 10 readings and intact
integrity, the suppression fires and bumps the statistic. -/
theorem c3_suppression_gate_witness :
    (handleFireSuppression c3State).1.suppressionActivations =
      (c3State.suppressionActivations + 1) % UINT32_MOD :=
  (((c3_suppression_gate c3State).2.1) (by decide)).2

/-- C2: (a) a successful activation sets the latch; (b) from a latched
state, as long as the evaluated temperature stays at or above 50 (so the
risk level never returns to Normal), every later evaluation-plus-suppression
step keeps the latch set and never bumps the activation statistic — in
particular at most one activation happens per contiguous Danger episode;
(c) a step that clears a set latch must be a step whose temperature is
below 50, i.e. a transition back to Normal. -/
theorem c2_one_shot_per_episode :
    (∀ s : S, (handleFireSuppression s).2 = true →
      (handleFireSuppression s).1.suppressionActivated = true) ∧
    (∀ (s : S) (ts : List ℚ), s.suppressionActivated = true →
      (∀ t ∈ ts, 50 ≤ t) →
      ((ts.foldl episodeStep s).suppressionActivated = true ∧
       (ts.foldl episodeStep s).suppressionActivations =
         s.suppressionActivations)) ∧
    (∀ (s : S) (t : ℚ), s.suppressionActivated = true →
      (episodeStep s t).suppressionActivated = false → t < 50) := by
  refine ⟨?_, ?_, ?_⟩
  · intro s h
    unfold handleFireSuppression activateFireSuppression at *
    split_ifs at * <;> simp_all
  · intro s ts
    induction ts generalizing s with
    | nil => intro hA _; exact ⟨hA, rfl⟩
    | cons t ts ih =>
        intro hA hall
        have hstep := episodeStep_latched s t hA (hall t (by simp))
        have hrest := ih (episodeStep s t) hstep.1
          (fun u hu => hall u (by simp [hu]))
        simp only [List.foldl_cons]
        exact ⟨hrest.1, by rw [hrest.2, hstep.2]⟩
  · intro s t hA hclear
    by_contra hge
    rw [(episodeStep_latched s t hA (le_of_not_lt hge)).1] at hclear
    simp at hclear

/-- A latched mid-episode state: Danger level, latch already set. -/
def c2State : S :=
  { initS with currentRiskLevel := .danger, currentTemperature := 70,
               suppressionActivated := true, suppressionActivations := 1,
               totalSensorReadings := 10 }

/-- Witness for C2: from a latched Danger state, three further hot readings
(70, 55, 70 — dipping to Warning but never to Normal) leave the latch set
and the activation statistic unchanged. -/
theorem c2_one_shot_per_episode_witness :
    (([(70 : ℚ), 55, 70].foldl episodeStep c2State).suppressionActivated =
      true ∧
     ([(70 : ℚ), 55, 70].foldl episodeStep c2State).suppressionActivations =
      c2State.suppressionActivations) :=
  c2_one_shot_per_episode.2.1 c2State [70, 55, 70] rfl (by decide)

/-- C7 counterexample: the effective-temperature trace 55, 70, 55 from the
initial state keeps the risk level at or above Warning throughout (one
single Warning-or-above episode, which never returns to Normal), yet the
warning-entry statistic is incremented twice — once for each re-entry into
the Warning level — refuting "exactly once per Warning-or-above episode". -/
theorem c7_counterexample :
    (evalStep initS 55).currentRiskLevel = .warning ∧
    (evalStep (evalStep initS 55) 70).currentRiskLevel = .danger ∧
    (evalStep (evalStep (evalStep initS 55) 70) 55).currentRiskLevel =
      .warning ∧
    (evalStep initS 55).warningActivations = 1 ∧
    (evalStep (evalStep (evalStep initS 55) 70) 55).warningActivations = 2 := by
  decide

/-- C7 (amended): in both sketches the statistics are edge-triggered per
level, not per episode: an evaluation step on temperature `t` applies the
modular `unsigned int` increment (by exactly 1 until the counter wraps) to
the warning-entry statistic when it moves the level to Warning
(`50 ≤ t < 60`) from a different level, applies it to the danger-entry
statistic when it moves the level to Danger (`60 ≤ t`) from a different
level, and leaves both statistics unchanged otherwise; hence a statistic is
bumped once per maximal run of its exact level (in particular exactly once
per Danger episode), while a Warning-or-above episode bumps the
warning-entry statistic once per re-entry into Warning. -/
theorem c7_transition_counters (s : S) (d : Dht.DState) (t u : ℚ) :
    ((evalStep s t).warningActivations =
      (if 50 ≤ t ∧ t < 60 ∧ s.currentRiskLevel ≠ .warning then
        (s.warningActivations + 1) % UINT32_MOD
       else s.warningActivations)) ∧
    ((evalStep s t).dangerActivations =
      (if 60 ≤ t ∧ s.currentRiskLevel ≠ .danger then
        (s.dangerActivations + 1) % UINT32_MOD
       else s.dangerActivations)) ∧
    ((Dht.checkStep d u).warnings =
      (if 50 ≤ u ∧ u < 60 ∧ d.riskLevel ≠ 1 then
        (d.warnings + 1) % Dht.UINT_MOD
       else d.warnings)) ∧
    ((Dht.checkStep d u).dangers =
      (if 60 ≤ u ∧ d.riskLevel ≠ 2 then
        (d.dangers + 1) % Dht.UINT_MOD
       else d.dangers)) := by
  unfold evalStep evaluateFireRisk TEMP_DANGER TEMP_WARNING
    Dht.checkStep Dht.checkRisk Dht.TEMP_DANGER Dht.TEMP_WARN
  refine ⟨?_, ?_, ?_, ?_⟩ <;> split_ifs <;>
    first
      | rfl
      | (simp_all; try linarith)
      | linarith

theorem dht_min_temp_value : Dht.MIN_TEMP = 4294967276 := by
  norm_num [Dht.MIN_TEMP, Dht.uintOfInt, Dht.UINT_MOD]
  rfl

theorem rejectReading_sysMode (s : Dht.DState) :
    (Dht.rejectReading s).sysMode = s.sysMode := by
  simp only [Dht.rejectReading]
  split_ifs <;> rfl

theorem rejectReading_lastValidTemp (s : Dht.DState) :
    (Dht.rejectReading s).lastValidTemp = s.lastValidTemp := by
  simp only [Dht.rejectReading]
  split_ifs <;> rfl

theorem rejectReading_currentTemp (s : Dht.DState) :
    (Dht.rejectReading s).currentTemp = s.lastValidTemp := by
  simp only [Dht.rejectReading]
  split_ifs <;> rfl

theorem rejectReading_count (s : Dht.DState) :
    (Dht.rejectReading s).sensorErrorCount =
      (s.sensorErrorCount + 1) % Dht.UINT_MOD := by
  simp only [Dht.rejectReading]
  split_ifs <;> rfl

/-- In auto mode, every raw DHT reading — NaN or any finite value — takes
the rejection branch, because a finite value below `MIN_TEMP = 4294967276`
fails the lower-bound check and a value at least `MIN_TEMP` exceeds
`MAX_TEMP = 100`. -/
theorem dht_reject_all (s : Dht.DState) (raw : Option ℚ) (pir : Bool)
    (hm : s.sysMode = 0) :
    Dht.readSensorsSecure s raw pir =
      { Dht.rejectReading { s with readings := s.readings + 1 } with
        motion := pir } := by
  unfold Dht.readSensorsSecure
  rw [if_neg (by simp [hm])]
  cases raw with
  | none => rfl
  | some t =>
      have htot : t < (Dht.MIN_TEMP : ℚ) ∨ (Dht.MAX_TEMP : ℚ) < t := by
        by_cases h : t < (Dht.MIN_TEMP : ℚ)
        · exact Or.inl h
        · refine Or.inr (lt_of_lt_of_le ?_ (le_of_not_lt h))
          rw [dht_min_temp_value]
          norm_num [Dht.MAX_TEMP]
      simp only []
      rw [if_pos htot]

theorem readSensorsSecure_fields (s : Dht.DState) (raw : Option ℚ)
    (pir : Bool) (hm : s.sysMode = 0) :
    (Dht.readSensorsSecure s raw pir).sysMode = 0 ∧
    (Dht.readSensorsSecure s raw pir).lastValidTemp = s.lastValidTemp ∧
    (Dht.readSensorsSecure s raw pir).currentTemp = s.lastValidTemp ∧
    (Dht.readSensorsSecure s raw pir).sensorErrorCount =
      (s.sensorErrorCount + 1) % Dht.UINT_MOD := by
  rw [dht_reject_all s raw pir hm]
  refine ⟨?_, ?_, ?_, ?_⟩ <;>
    simp [rejectReading_sysMode, rejectReading_lastValidTemp,
      rejectReading_currentTemp, rejectReading_count, hm]

theorem dht_reject_run (samples : List (Option ℚ × Bool)) :
    ∀ s : Dht.DState, s.sysMode = 0 → s.lastValidTemp = 25 →
      s.currentTemp = 25 → s.sensorErrorCount < Dht.UINT_MOD →
      (Dht.runReads s samples).sysMode = 0 ∧
      (Dht.runReads s samples).lastValidTemp = 25 ∧
      (Dht.runReads s samples).currentTemp = 25 ∧
      (Dht.runReads s samples).sensorErrorCount =
        (s.sensorErrorCount + samples.length) % Dht.UINT_MOD := by
  induction samples with
  | nil =>
      intro s h1 h2 h3 h4
      exact ⟨h1, h2, h3, by simpa [Dht.runReads] using (Nat.mod_eq_of_lt h4).symm⟩
  | cons p rest ih =>
      intro s h1 h2 h3 h4
      have hf := readSensorsSecure_fields s p.1 p.2 h1
      have hrun : Dht.runReads s (p :: rest) =
          Dht.runReads (Dht.readSensorsSecure s p.1 p.2) rest := rfl
      have hih := ih (Dht.readSensorsSecure s p.1 p.2) hf.1
        (hf.2.1.trans h2) (hf.2.2.1.trans h2)
        (by rw [hf.2.2.2]; exact Nat.mod_lt _ (by norm_num [Dht.UINT_MOD]))
      refine ⟨by rw [hrun]; exact hih.1, by rw [hrun]; exact hih.2.1,
        by rw [hrun]; exact hih.2.2.1, ?_⟩
      rw [hrun, hih.2.2.2, hf.2.2.2, Nat.mod_add_mod, List.length_cons]
      ring_nf

/-- C6: the `unsigned int` initializer `MIN_TEMP = -20` wraps to 4294967276;
consequently any temperature a sensor can produce (here any value in
[-1000, 1000], far beyond the DHT22 range) is below `MIN_TEMP` under the
float comparison, so in Auto mode every live reading is rejected: starting
from the initial state, after any sequence of raw readings the effective
temperature and the last-valid value are still 25.0, and the
consecutive-error counter has been bumped once per reading (value
`n % 2^32` after `n` readings, never reset). -/
theorem c6_min_temp_wrap :
    Dht.MIN_TEMP = 4294967276 ∧
    (∀ t : ℚ, -1000 ≤ t → t ≤ 1000 → t < (Dht.MIN_TEMP : ℚ)) ∧
    (∀ samples : List (Option ℚ × Bool),
      (Dht.runReads Dht.dInit samples).currentTemp = 25 ∧
      (Dht.runReads Dht.dInit samples).lastValidTemp = 25 ∧
      (Dht.runReads Dht.dInit samples).sensorErrorCount =
        samples.length % Dht.UINT_MOD) := by
  refine ⟨dht_min_temp_value, ?_, ?_⟩
  · intro t h1 h2
    rw [dht_min_temp_value]
    have : ((4294967276 : ℕ) : ℚ) = 4294967276 := by norm_num
    rw [this]
    linarith
  · intro samples
    have h := dht_reject_run samples Dht.dInit rfl rfl rfl
      (by norm_num [Dht.dInit, Dht.UINT_MOD])
    exact ⟨h.2.2.1, h.2.1, by simpa [Dht.dInit] using h.2.2.2⟩

/-- Witness for C6: a realistic 25 °C DHT reading is rejected, and one such
reading from the initial state leaves the temperature at 25 and sets the
error counter to 1. -/
theorem c6_min_temp_wrap_witness :
    ((25 : ℚ) < (Dht.MIN_TEMP : ℚ)) ∧
    (Dht.runReads Dht.dInit [(some 25, false)]).currentTemp = 25 ∧
    (Dht.runReads Dht.dInit [(some 25, false)]).sensorErrorCount =
      [((some (25 : ℚ)), false)].length % Dht.UINT_MOD :=
  ⟨c6_min_temp_wrap.2.1 25 (by norm_num) (by norm_num),
   (c6_min_temp_wrap.2.2 [(some 25, false)]).1,
   (c6_min_temp_wrap.2.2 [(some 25, false)]).2.2⟩

/-- C9: in the DHT sketch, an Auto-mode sensor-read step whose rejection
pushes the consecutive-error count above 5 forcibly sets the risk level to
Warning (1), whatever the stored temperature or previous level was. -/
theorem c9_forced_warning (s : Dht.DState) (raw : Option ℚ) (pir : Bool)
    (hm : s.sysMode = 0)
    (hc : 5 < (s.sensorErrorCount + 1) % Dht.UINT_MOD) :
    (Dht.readSensorsSecure s raw pir).riskLevel = 1 := by
  rw [dht_reject_all s raw pir hm]
  show (Dht.rejectReading { s with readings := s.readings + 1 }).riskLevel = 1
  simp only [Dht.rejectReading]
  rw [if_pos (by simpa using hc)]

/-- Witness for C9: at error count 5 (sixth consecutive rejection), a cool
20 °C state is forced to Warning by the read step. -/
theorem c9_forced_warning_witness :
    (Dht.readSensorsSecure
      { Dht.dInit with sensorErrorCount := 5, currentTemp := 20 }
      (some 25) false).riskLevel = 1 :=
  c9_forced_warning
    { Dht.dInit with sensorErrorCount := 5, currentTemp := 20 }
    (some 25) false rfl (by norm_num [Dht.UINT_MOD])

/-- A state with the byte invalid-command counter at 255. It is reachable:
the length-validation rejection path increments the counter with no
threshold check and no reset, so 255 overlong (or empty) submissions drive
the byte counter from 0 to 255. -/
def c8WrapState : S := { initS with invalidCommandCount := 255 }

/-- C8 counterexample: at invalid-command count 255 (reachable through the
length-rejection path, which never resets the counter), an in-ceiling
unrecognized command wraps the byte counter to 0 — not an increment by 1 —
and no security alert is emitted even though the counter had long passed
the threshold. -/
theorem c8_counterexample :
    c8WrapState.invalidCommandCount = 255 ∧
    (processSecureCommand c8WrapState "FLOOD").1.invalidCommandCount = 0 ∧
    (processSecureCommand c8WrapState "FLOOD").2 = false ∧
    (processSecureCommand c8WrapState "FLOOD").1.invalidCommandCount ≠
      c8WrapState.invalidCommandCount + 1 := by
  decide

/-- C8 (amended): a submitted command that is non-empty, within the
15-character ceiling, and not one of the recognized keywords applies the
modular byte increment to the invalid-command counter (by exactly 1
whenever the counter is below 255) and changes nothing else; when the
bumped counter reaches the threshold `MAX_INVALID_COMMANDS = 3`, the
security alert is emitted and the counter is reset to 0 instead. -/
theorem c8_unknown_command (s : S) (cmd : String)
    (hne : cmd.length ≠ 0) (hlen : cmd.length ≤ 15)
    (hkw : cmd ∉ commandKeywords) :
    processSecureCommand s cmd =
      (if 3 ≤ (s.invalidCommandCount + 1) % BYTE_MOD then
         ({ s with invalidCommandCount := 0 }, true)
       else
         ({ s with invalidCommandCount :=
              (s.invalidCommandCount + 1) % BYTE_MOD },
          false)) := by
  simp only [commandKeywords, List.mem_cons, List.not_mem_nil, or_false] at hkw
  push_neg at hkw
  obtain ⟨k1, k2, k3, k4, k5, k6, k7, k8, k9, k10, k11⟩ := hkw
  unfold processSecureCommand MAX_INVALID_COMMANDS
  rw [if_neg (by push_neg; exact ⟨hne, hlen⟩), if_neg k1, if_neg k2,
    if_neg k3, if_neg k4, if_neg k5, if_neg k6, if_neg k7, if_neg k8,
    if_neg k9, if_neg k10, if_neg k11]

/-- A state with two prior invalid commands recorded. -/
def c8State : S := { initS with invalidCommandCount := 2 }

/-- Witness for C8 (amended): a third unrecognized command triggers the
security alert and resets the counter to 0. -/
theorem c8_unknown_command_witness :
    processSecureCommand c8State "FLOOD" =
      ({ c8State with invalidCommandCount := 0 }, true) := by
  have h := c8_unknown_command c8State "FLOOD" (by decide) (by decide)
    (by decide)
  simpa [c8State, initS, BYTE_MOD] using h

theorem elapsed_self (now : Nat) (hn : now < UINT32_MOD) :
    elapsed now now = 0 := by
  unfold elapsed UINT32_MOD at *
  omega

theorem updateLEDIndicators_stable (s : S) (now : Nat)
    (hn : now < UINT32_MOD) :
    updateLEDIndicators
        (updateBuzzerAlerts (updateLEDIndicators s now) now) now =
      updateBuzzerAlerts (updateLEDIndicators s now) now := by
  have hz := elapsed_self now hn
  unfold updateLEDIndicators updateBuzzerAlerts
  cases h : s.currentRiskLevel <;> simp [h] <;> split_ifs <;>
    first
      | (simp_all [hz]; done)
      | (exfalso; omega)
      | (simp_all [hz]; omega)

theorem updateBuzzerAlerts_idem (s : S) (now : Nat)
    (hn : now < UINT32_MOD) :
    updateBuzzerAlerts (updateBuzzerAlerts s now) now =
      updateBuzzerAlerts s now := by
  have hz := elapsed_self now hn
  unfold updateBuzzerAlerts
  cases h : s.currentRiskLevel <;> simp [h] <;> split_ifs <;>
    first
      | (simp_all [hz]; done)
      | (exfalso; omega)
      | (simp_all [hz]; omega)

theorem updateBuzzerAlerts_level (s : S) (now : Nat) :
    (updateBuzzerAlerts s now).currentRiskLevel = s.currentRiskLevel := by
  unfold updateBuzzerAlerts
  cases h : s.currentRiskLevel <;> simp [h] <;> split_ifs <;> simp [h]

/-- C10: the output render phase is idempotent within a tick — running the
LED update and the buzzer update a second time at the same `millis()` value
leaves all output pin levels, blink/beep toggle state, and toggle
timestamps exactly as after the first run (no extra toggles). -/
theorem c10_render_idempotent (s : S) (now : Nat) (hn : now < UINT32_MOD) :
    render (render s now) now = render s now := by
  unfold render
  rw [updateLEDIndicators_stable s now hn,
    updateBuzzerAlerts_idem (updateLEDIndicators s now) now hn]

/-- Witness for C10 at a freshly-toggling Warning state: rendering twice at
time 1500 equals rendering once. -/
theorem c10_render_idempotent_witness :
    render (render { initS with currentRiskLevel := .warning } 1500) 1500 =
      render { initS with currentRiskLevel := .warning } 1500 :=
  c10_render_idempotent { initS with currentRiskLevel := .warning } 1500
    (by norm_num [UINT32_MOD])

end FireDetection
